import Mathlib

/-!
Shallow embedding of the dnscat2 client session engine
(`src/client/session.c`) and proofs about its protocol state machine.

The session engine is translated function by function.  Side effects
(the outgoing-data callback, the incoming-data callback, and process
exit) are recorded as an event trace returned alongside the updated
session, and the byte-buffer collaborator (`buffer.c`, not part of the
source tree) is modelled as a list of bytes following the interface the
specification gives for it: append, peek without consuming, consume a
prefix, report remaining length, clear when empty.
-/

namespace Dnscat2

/-- Packet type tags.  Modelled from the spec: `packet.h` is not in the
source tree; the dispatch in `session_recv` only compares these tags for
equality, so their concrete values are immaterial as long as they are
distinct.  Any other value is an unknown packet type. -/
def PACKET_TYPE_SYN : Nat := 0

/-- MSG packet type tag (see `PACKET_TYPE_SYN`). -/
def PACKET_TYPE_MSG : Nat := 1

/-- FIN packet type tag (see `PACKET_TYPE_SYN`). -/
def PACKET_TYPE_FIN : Nat := 2

/-- A fully parsed logical packet, the tagged union `packet_t` of
`packet.h`.  The union body is flattened into fields; only the fields of
the active variant (per `packet_type`) are meaningful, exactly as in the
C union.  `msg_data` doubles as its own `data_length` via `List.length`. -/
structure Packet where
  session_id : Nat
  packet_type : Nat
  syn_seq : Nat
  syn_name : Option String
  msg_seq : Nat
  msg_ack : Nat
  msg_data : List Nat
deriving DecidableEq, Repr

/-- The session states used by `session.c`
(`SESSION_STATE_NEW`, `SESSION_STATE_ESTABLISHED`). -/
inductive SessionState where
  | SESSION_STATE_NEW
  | SESSION_STATE_ESTABLISHED
deriving DecidableEq, Repr

/-- The observable effects of a session operation, in order:
a packet handed to the outgoing-data callback, bytes handed to the
incoming-data callback, or a process exit with the given code. -/
inductive Event where
  | sent (p : Packet)
  | delivered (sid : Nat) (data : List Nat)
  | exited (code : Nat)
deriving DecidableEq, Repr

/-- The session record `session_t`.  The callback pointers and
`callback_param` are not stored: calls through them are recorded as
`Event`s instead. -/
structure Session where
  id : Nat
  my_seq : Nat
  state : SessionState
  their_seq : Nat
  is_closed : Bool
  max_packet_size : Nat
  incoming_data : List Nat
  outgoing_data : List Nat
  name : Option String
deriving DecidableEq, Repr

/-- Modelled from the spec: the byte-queue collaborator's append
operation (`buffer_add_bytes`); bytes are appended at the tail. -/
def buffer_add_bytes (buf : List Nat) (data : List Nat) : List Nat :=
  buf ++ data

/-- Modelled from the spec: the byte-queue collaborator's remaining
unconsumed byte count (`buffer_get_remaining_bytes`). -/
def buffer_get_remaining_bytes (buf : List Nat) : Nat :=
  buf.length

/-- Modelled from the spec: the byte-queue collaborator's consume
operation (`buffer_consume`); removes `n` bytes from the head. -/
def buffer_consume (buf : List Nat) (n : Nat) : List Nat :=
  buf.drop n

/-- Modelled from the spec: the byte-queue collaborator's peek
(`buffer_read_remaining_bytes` with `consume = FALSE`); reads up to
`max` bytes from the head without removing them. -/
def buffer_read_remaining_bytes (buf : List Nat) (max : Nat) : List Nat :=
  buf.take max

/-- Modelled from the spec: the byte-queue collaborator's clear
operation (`buffer_clear`); `session.c` only invokes it when the
remaining length is zero. -/
def buffer_clear (_ : List Nat) : List Nat :=
  []

/-- Modelled from the spec: `packet_get_msg_size` (in `packet.c`, not in
the source tree) returns the framing overhead of a MSG packet, the
constant subtracted from `max_packet_size` to bound the payload.  Its
concrete value is immaterial to the claims. -/
def packet_get_msg_size : Nat :=
  9

/-- Embedding of `packet_create_syn(session_id, seq, options)`; the `options`
argument is always 0 in `session.c` and carries no modelled content. -/
def packet_create_syn (sid : Nat) (seq : Nat) (_options : Nat) : Packet :=
  ⟨sid, PACKET_TYPE_SYN, seq, none, 0, 0, []⟩

/-- Embedding of `packet_syn_set_name`. -/
def packet_syn_set_name (p : Packet) (n : String) : Packet :=
  { p with syn_name := some n }

/-- Embedding of `packet_create_msg(session_id, seq, ack, data, length)`. -/
def packet_create_msg (sid : Nat) (seq : Nat) (ack : Nat) (data : List Nat) : Packet :=
  ⟨sid, PACKET_TYPE_MSG, 0, none, seq, ack, data⟩

/-- Embedding of `packet_create_fin(session_id)`. -/
def packet_create_fin (sid : Nat) : Packet :=
  ⟨sid, PACKET_TYPE_FIN, 0, none, 0, 0, []⟩

/-- The C line `uint16_t bytes_acked = packet->body.msg.ack - session->my_seq;`
(session.c line 213): subtraction of two 16-bit values truncated back to
16 bits, i.e. the difference modulo 65536. -/
def seqSub (a : Nat) (b : Nat) : Nat :=
  (((a : Int) - (b : Int)) % 65536).toNat

/-- The C expression `session->max_packet_size - packet_get_msg_size()`
with `size_t` operands: subtraction modulo 2^64.  For every
`max_packet_size ≥ packet_get_msg_size` this is plain subtraction. -/
def size_sub (a : Nat) (b : Nat) : Nat :=
  (((a : Int) - (b : Int)) % 18446744073709551616).toNat

/-- The payload bound used by `do_send_stuff` in `SESSION_STATE_ESTABLISHED`:
`session->max_packet_size - packet_get_msg_size()`. -/
def max_packet_payload (session : Session) : Nat :=
  size_sub session.max_packet_size packet_get_msg_size

/-- Embedding of `do_send_stuff` (session.c lines 29-67).  It mutates no session
field (the Established branch reads the outgoing buffer without
consuming), so it returns only the event trace.  The `default` branch of
the C switch (unknown state) is unreachable here because the state field
ranges over the two declared states. -/
def do_send_stuff (session : Session) : List Event :=
  match session.state with
  | SessionState.SESSION_STATE_NEW =>
    let packet := packet_create_syn session.id session.my_seq 0
    let packet :=
      match session.name with
      | some n => packet_syn_set_name packet n
      | none => packet
    [Event.sent packet]
  | SessionState.SESSION_STATE_ESTABLISHED =>
    let data := buffer_read_remaining_bytes session.outgoing_data
        (size_sub session.max_packet_size packet_get_msg_size)
    let packet := packet_create_msg session.id session.my_seq session.their_seq data
    [Event.sent packet]

/-- Embedding of `session_send` (session.c lines 69-78): append to the outgoing
buffer, then trigger the send path. -/
def session_send (session : Session) (data : List Nat) : Session × List Event :=
  let session := { session with
    outgoing_data := buffer_add_bytes session.outgoing_data data }
  (session, do_send_stuff session)

/-- Embedding of `session_create` (session.c lines 80-102).  The two `rand()` calls
are modelled as the arbitrary inputs `r_id` and `r_seq`; the C code
takes them modulo `0xFFFF` (65535, not 65536).  The `name` field is
never assigned in `session_create`; `safe_malloc` zero-fills the
allocation, giving a null name, modelled as `none`.  The callback
pointers are not part of the model (see `Event`). -/
def session_create (r_id : Nat) (r_seq : Nat) (max_size : Nat) : Session :=
  { id := r_id % 0xFFFF
    my_seq := r_seq % 0xFFFF
    state := SessionState.SESSION_STATE_NEW
    their_seq := 0
    is_closed := false
    max_packet_size := max_size
    incoming_data := []
    outgoing_data := []
    name := none }

/-- Embedding of `session_set_name` (session.c lines 116-121). -/
def session_set_name (session : Session) (n : String) : Session :=
  { session with name := some n }

/-- Embedding of `send_final_fin` (session.c lines 123-134): build a FIN packet and
hand it to the send callback. -/
def send_final_fin (session : Session) : List Event :=
  [Event.sent (packet_create_fin session.id)]

/-- Embedding of `session_close` (session.c lines 136-146): set `is_closed`; if both
buffers are already empty, send the final FIN and `exit(0)`. -/
def session_close (session : Session) : Session × List Event :=
  let session := { session with is_closed := true }
  if buffer_get_remaining_bytes session.incoming_data = 0 ∧
      buffer_get_remaining_bytes session.outgoing_data = 0 then
    (session, send_final_fin session ++ [Event.exited 0])
  else
    (session, [])

/-- Embedding of `clean_up_buffers` (session.c lines 148-154): clear each buffer
whose remaining length is zero. -/
def clean_up_buffers (session : Session) : Session :=
  let session :=
    if buffer_get_remaining_bytes session.outgoing_data = 0 then
      { session with outgoing_data := buffer_clear session.outgoing_data }
    else session
  if buffer_get_remaining_bytes session.incoming_data = 0 then
    { session with incoming_data := buffer_clear session.incoming_data }
  else session

/-- The tail of `session_recv` (session.c lines 278-284): if outgoing
data remains and new bytes were acked by this call, re-drive the send
path. -/
def session_recv_tail (session : Session) (new_bytes_acked : Bool) :
    Session × List Event :=
  if buffer_get_remaining_bytes session.outgoing_data > 0 ∧ new_bytes_acked = true then
    (session, do_send_stuff session)
  else
    (session, [])

/-- The accepted-MSG body of `session_recv` (session.c lines 216-234):
advance `their_seq` by the data length mod 65536, consume the acked
bytes, advance `my_seq` when `bytes_acked ≠ 0`, deliver non-empty data
via the incoming-data callback, then run the tail. -/
def session_recv_accept (session : Session) (packet : Packet)
    (bytes_acked : Nat) : Session × List Event :=
  let session := { session with
    their_seq := (session.their_seq + packet.msg_data.length) % 65536 }
  let session := { session with
    outgoing_data := buffer_consume session.outgoing_data bytes_acked }
  let step :=
    if bytes_acked ≠ 0 then
      ({ session with my_seq := (session.my_seq + bytes_acked) % 65536 }, true)
    else
      (session, false)
  let session := step.1
  let new_bytes_acked := step.2
  let deliver :=
    if packet.msg_data.length > 0 then
      [Event.delivered session.id packet.msg_data]
    else []
  let tail := session_recv_tail session new_bytes_acked
  (tail.1, deliver ++ tail.2)

/-- Embedding of `session_recv` (session.c lines 156-284).  A `none` packet is the
"failed to parse" signal (`LOG_FATAL; exit(1)`).  Logging is not
modelled; `packet_destroy` is memory management and not modelled.  Exit
paths return immediately, skipping the re-drive tail, exactly as
`exit()` does. -/
def session_recv (session : Session) (packet : Option Packet) :
    Session × List Event :=
  match packet with
  | none => (session, [Event.exited 1])
  | some packet =>
    if packet.session_id ≠ session.id then
      session_recv_tail session false
    else
      match session.state with
      | SessionState.SESSION_STATE_NEW =>
        if packet.packet_type = PACKET_TYPE_SYN then
          let session := { session with
            their_seq := packet.syn_seq
            state := SessionState.SESSION_STATE_ESTABLISHED }
          session_recv_tail session false
        else if packet.packet_type = PACKET_TYPE_MSG then
          session_recv_tail session false
        else if packet.packet_type = PACKET_TYPE_FIN then
          (session, [Event.exited 0])
        else
          (session, [Event.exited 1])
      | SessionState.SESSION_STATE_ESTABLISHED =>
        if packet.packet_type = PACKET_TYPE_SYN then
          session_recv_tail session false
        else if packet.packet_type = PACKET_TYPE_MSG then
          if packet.msg_seq = session.their_seq then
            let bytes_acked := seqSub packet.msg_ack session.my_seq
            if bytes_acked ≤ buffer_get_remaining_bytes session.outgoing_data then
              session_recv_accept session packet bytes_acked
            else
              session_recv_tail session false
          else
            session_recv_tail session false
        else if packet.packet_type = PACKET_TYPE_FIN then
          (session, [Event.exited 0])
        else
          (session, send_final_fin session ++ [Event.exited 0])

/-- Embedding of `session_do_actions` (session.c lines 286-300): clean up the
buffers, drive the send path, and if the session is closed with both
buffers empty, send the final FIN and `exit(0)`. -/
def session_do_actions (session : Session) : Session × List Event :=
  let session := clean_up_buffers session
  let sendEvents := do_send_stuff session
  if session.is_closed = true ∧
      buffer_get_remaining_bytes session.incoming_data = 0 ∧
      buffer_get_remaining_bytes session.outgoing_data = 0 then
    (session, sendEvents ++ send_final_fin session ++ [Event.exited 0])
  else
    (session, sendEvents)

/-- True when the trace hands a FIN packet to the send callback. -/
def sends_fin (events : List Event) : Bool :=
  events.any fun e =>
    match e with
    | Event.sent p => p.packet_type == PACKET_TYPE_FIN
    | _ => false

/-- True when the trace delivers bytes through the incoming-data
callback. -/
def delivers_data (events : List Event) : Bool :=
  events.any fun e =>
    match e with
    | Event.delivered _ _ => true
    | _ => false

/-- One application of a public session operation, as the owner may
perform it. -/
inductive Step : Session → Session → Prop where
  | send (s : Session) (d : List Nat) : Step s (session_send s d).1
  | recv (s : Session) (p : Option Packet) : Step s (session_recv s p).1
  | close (s : Session) : Step s (session_close s).1
  | do_actions (s : Session) : Step s (session_do_actions s).1
  | set_name (s : Session) (n : String) : Step s (session_set_name s n)

/-- Sessions reachable from `session_create` by public operations. -/
inductive Reachable : Session → Prop where
  | created (r_id r_seq max_size : Nat) :
      Reachable (session_create r_id r_seq max_size)
  | step {s s2 : Session} : Reachable s → Step s s2 → Reachable s2

/-! Helper lemmas shared by the claim theorems. -/

/-- The re-drive tail never changes the session. -/
theorem session_recv_tail_fst (s : Session) (b : Bool) :
    (session_recv_tail s b).1 = s := by
  unfold session_recv_tail
  split <;> rfl

/-- With no newly acked bytes the re-drive tail does nothing at all. -/
theorem session_recv_tail_false (s : Session) :
    session_recv_tail s false = (s, []) := by
  simp [session_recv_tail]

/-- The send path emits a SYN or a MSG, never a FIN. -/
theorem sends_fin_do_send_stuff (s : Session) :
    sends_fin (do_send_stuff s) = false := by
  unfold do_send_stuff
  cases s.state <;> cases s.name <;>
    simp [sends_fin, packet_create_syn, packet_syn_set_name, packet_create_msg,
      PACKET_TYPE_SYN, PACKET_TYPE_MSG, PACKET_TYPE_FIN]

/-- The re-drive tail never emits a FIN. -/
theorem sends_fin_session_recv_tail (s : Session) (b : Bool) :
    sends_fin (session_recv_tail s b).2 = false := by
  unfold session_recv_tail
  split
  · exact sends_fin_do_send_stuff s
  · rfl

/-- The accepted-MSG body never emits a FIN. -/
theorem sends_fin_session_recv_accept (s : Session) (p : Packet) (b : Nat) :
    sends_fin (session_recv_accept s p b).2 = false := by
  unfold session_recv_accept
  have h1 := sends_fin_session_recv_tail
  simp only [sends_fin, List.any_append, Bool.or_eq_false_iff] at h1 ⊢
  constructor
  · split <;> simp
  · split <;> apply h1

/-- Field bookkeeping for the accepted-MSG body. -/
theorem session_recv_accept_fst (s : Session) (p : Packet) (b : Nat) :
    (session_recv_accept s p b).1 =
      { s with
        their_seq := (s.their_seq + p.msg_data.length) % 65536
        outgoing_data := s.outgoing_data.drop b
        my_seq := if b = 0 then s.my_seq else (s.my_seq + b) % 65536 } := by
  unfold session_recv_accept
  by_cases hb : b = 0 <;>
    simp [hb, session_recv_tail_fst, buffer_consume]

/-- Wraparound subtraction of equal values is zero. -/
theorem seqSub_self (a : Nat) : seqSub a a = 0 := by
  simp [seqSub]

/-- C1: in `SESSION_STATE_ESTABLISHED`, a MSG with matching session id,
`seq` equal to `their_seq`, and `bytes_acked = (ack - my_seq) mod 65536`
within the outgoing buffer removes exactly `bytes_acked` bytes from the
head of the outgoing buffer, advances `my_seq` by `bytes_acked` modulo
65536, and advances `their_seq` by the data length modulo 65536. -/
theorem C1_ack_applies_exactly (s : Session) (p : Packet)
    (hst : s.state = SessionState.SESSION_STATE_ESTABLISHED)
    (hid : p.session_id = s.id)
    (hty : p.packet_type = PACKET_TYPE_MSG)
    (hseq : p.msg_seq = s.their_seq)
    (hms : s.my_seq < 65536)
    (hack : seqSub p.msg_ack s.my_seq ≤ buffer_get_remaining_bytes s.outgoing_data) :
    (session_recv s (some p)).1.outgoing_data =
        s.outgoing_data.drop (seqSub p.msg_ack s.my_seq) ∧
    (session_recv s (some p)).1.my_seq =
        (s.my_seq + seqSub p.msg_ack s.my_seq) % 65536 ∧
    (session_recv s (some p)).1.their_seq =
        (s.their_seq + p.msg_data.length) % 65536 := by
  have hrecv : session_recv s (some p) =
      session_recv_accept s p (seqSub p.msg_ack s.my_seq) := by
    unfold session_recv
    simp [hid, hst, hty, hseq, hack, PACKET_TYPE_SYN, PACKET_TYPE_MSG]
  rw [hrecv, session_recv_accept_fst]
  refine ⟨rfl, ?_, rfl⟩
  by_cases hb : seqSub p.msg_ack s.my_seq = 0
  · simp [hb, Nat.mod_eq_of_lt hms]
  · simp [hb]

/-- Witness for C1 at a concrete state: an Established session with
three queued bytes receives a MSG acking two of them and carrying one
data byte. -/
theorem C1_ack_applies_exactly_witness :
    (session_recv
        ⟨1, 10, SessionState.SESSION_STATE_ESTABLISHED, 5, false, 20, [], [7, 8, 9], none⟩
        (some ⟨1, PACKET_TYPE_MSG, 0, none, 5, 12, [3]⟩)).1.outgoing_data = [9] ∧
    (session_recv
        ⟨1, 10, SessionState.SESSION_STATE_ESTABLISHED, 5, false, 20, [], [7, 8, 9], none⟩
        (some ⟨1, PACKET_TYPE_MSG, 0, none, 5, 12, [3]⟩)).1.my_seq = 12 ∧
    (session_recv
        ⟨1, 10, SessionState.SESSION_STATE_ESTABLISHED, 5, false, 20, [], [7, 8, 9], none⟩
        (some ⟨1, PACKET_TYPE_MSG, 0, none, 5, 12, [3]⟩)).1.their_seq = 6 := by
  have h := C1_ack_applies_exactly
    ⟨1, 10, SessionState.SESSION_STATE_ESTABLISHED, 5, false, 20, [], [7, 8, 9], none⟩
    ⟨1, PACKET_TYPE_MSG, 0, none, 5, 12, [3]⟩
    rfl rfl rfl rfl (by decide) (by decide)
  revert h
  decide

/-- C2: in `SESSION_STATE_ESTABLISHED`, a MSG with matching session id
and `seq` equal to `their_seq` whose ack claims more bytes than the
outgoing buffer holds is rejected: the session is unchanged and no
callback fires. -/
theorem C2_overlong_ack_rejected (s : Session) (p : Packet)
    (hst : s.state = SessionState.SESSION_STATE_ESTABLISHED)
    (hid : p.session_id = s.id)
    (hty : p.packet_type = PACKET_TYPE_MSG)
    (hseq : p.msg_seq = s.their_seq)
    (hack : seqSub p.msg_ack s.my_seq > buffer_get_remaining_bytes s.outgoing_data) :
    session_recv s (some p) = (s, []) := by
  unfold session_recv
  simp [hid, hst, hty, hseq, Nat.not_le.mpr hack, PACKET_TYPE_SYN, PACKET_TYPE_MSG,
    session_recv_tail_false]

/-- Witness for C2 at a concrete state: the session holds three
unacknowledged bytes and the MSG acks four. -/
theorem C2_overlong_ack_rejected_witness :
    session_recv
        ⟨1, 10, SessionState.SESSION_STATE_ESTABLISHED, 5, false, 20, [], [7, 8, 9], none⟩
        (some ⟨1, PACKET_TYPE_MSG, 0, none, 5, 14, [3]⟩) =
      (⟨1, 10, SessionState.SESSION_STATE_ESTABLISHED, 5, false, 20, [], [7, 8, 9], none⟩,
        []) :=
  C2_overlong_ack_rejected
    ⟨1, 10, SessionState.SESSION_STATE_ESTABLISHED, 5, false, 20, [], [7, 8, 9], none⟩
    ⟨1, PACKET_TYPE_MSG, 0, none, 5, 14, [3]⟩
    rfl rfl rfl rfl (by decide)

/-- C3: the acknowledged-byte count `seqSub` computed at session.c line
213 equals the mathematical difference `(ack - local_seq) mod 65536`,
so it is correct across the 16-bit wraparound boundary; in particular
`local_seq = 0xFFFE` and `ack = 0x0002` give 4. -/
theorem C3_seq_arithmetic_wraps (a b : Nat) (ha : a < 65536) (hb : b < 65536) :
    seqSub a b = (a + 65536 - b) % 65536 ∧ seqSub 0x0002 0xFFFE = 4 := by
  constructor
  · unfold seqSub
    omega
  · decide

/-- Witness for C3 at the wraparound pair from the specification. -/
theorem C3_seq_arithmetic_wraps_witness :
    seqSub 0x0002 0xFFFE = (0x0002 + 65536 - 0xFFFE) % 65536 ∧ seqSub 0x0002 0xFFFE = 4 :=
  C3_seq_arithmetic_wraps 0x0002 0xFFFE (by decide) (by decide)

/-- C7: a packet whose session id differs from the session's id never
mutates the session and produces no events, in every state and for every
packet type. -/
theorem C7_id_mismatch_is_noop (s : Session) (p : Packet)
    (h : p.session_id ≠ s.id) :
    session_recv s (some p) = (s, []) := by
  unfold session_recv
  simp [h, session_recv_tail_false]

/-- Witness for C7: a SYN for session id 2 arrives at session id 1. -/
theorem C7_id_mismatch_is_noop_witness :
    session_recv
        ⟨1, 10, SessionState.SESSION_STATE_NEW, 0, false, 20, [], [7], none⟩
        (some ⟨2, PACKET_TYPE_SYN, 99, none, 0, 0, []⟩) =
      (⟨1, 10, SessionState.SESSION_STATE_NEW, 0, false, 20, [], [7], none⟩, []) :=
  C7_id_mismatch_is_noop
    ⟨1, 10, SessionState.SESSION_STATE_NEW, 0, false, 20, [], [7], none⟩
    ⟨2, PACKET_TYPE_SYN, 99, none, 0, 0, []⟩
    (by decide)

/-- C10: a pure retransmission ack — an in-sequence MSG whose ack equals
`my_seq` and whose data is empty — leaves the session unchanged,
produces no events, and is therefore idempotent. -/
theorem C10_pure_retransmission_ack_noop (s : Session) (p : Packet)
    (hst : s.state = SessionState.SESSION_STATE_ESTABLISHED)
    (hid : p.session_id = s.id)
    (hty : p.packet_type = PACKET_TYPE_MSG)
    (hseq : p.msg_seq = s.their_seq)
    (hack : p.msg_ack = s.my_seq)
    (hdata : p.msg_data = [])
    (hts : s.their_seq < 65536) :
    session_recv s (some p) = (s, []) ∧
    session_recv (session_recv s (some p)).1 (some p) = session_recv s (some p) := by
  have hrecv : session_recv s (some p) = session_recv_accept s p 0 := by
    unfold session_recv
    simp [hid, hst, hty, hseq, hack, seqSub_self, PACKET_TYPE_SYN, PACKET_TYPE_MSG]
  have hacc : session_recv_accept s p 0 = (s, []) := by
    unfold session_recv_accept
    simp [hdata, buffer_consume, session_recv_tail_false, Nat.mod_eq_of_lt hts]
  rw [hrecv, hacc]
  exact ⟨rfl, hrecv.trans hacc⟩

/-- Witness for C10: an Established session receives a MSG repeating the
current ack with no data. -/
theorem C10_pure_retransmission_ack_noop_witness :
    session_recv
        ⟨1, 10, SessionState.SESSION_STATE_ESTABLISHED, 5, false, 20, [], [7, 8, 9], none⟩
        (some ⟨1, PACKET_TYPE_MSG, 0, none, 5, 10, []⟩) =
      (⟨1, 10, SessionState.SESSION_STATE_ESTABLISHED, 5, false, 20, [], [7, 8, 9], none⟩,
        []) :=
  (C10_pure_retransmission_ack_noop
    ⟨1, 10, SessionState.SESSION_STATE_ESTABLISHED, 5, false, 20, [], [7, 8, 9], none⟩
    ⟨1, PACKET_TYPE_MSG, 0, none, 5, 10, []⟩
    rfl rfl rfl rfl rfl rfl (by decide)).1

/-- C5 counterexample: `session_create` draws `id` and `my_seq` with
`rand() % 0xFFFF`, that is modulo 65535, so the value 65535 is never
attained — the range is not all of 0..65535 as the claim states. -/
theorem C5_counterexample :
    ¬ ∃ r_id r_seq max_size : Nat,
      ((session_create r_id r_seq max_size).id = 65535 ∨
        (session_create r_id r_seq max_size).my_seq = 65535) := by
  rintro ⟨a, b, m, h | h⟩ <;> simp [session_create] at h <;> omega

/-- C5 (amended): `session_create` returns a session whose `id` and
`my_seq` are the random draws reduced modulo 65535 — every value in
0..65534 is attainable, 65535 is not — with state New, `their_seq` 0,
`is_closed` false, and both queues empty. -/
theorem C5_create_initial_state (r_id r_seq max_size v : Nat) (hv : v < 65535) :
    (session_create r_id r_seq max_size).id = r_id % 65535 ∧
    (session_create r_id r_seq max_size).my_seq = r_seq % 65535 ∧
    (session_create r_id r_seq max_size).id < 65535 ∧
    (session_create r_id r_seq max_size).my_seq < 65535 ∧
    (session_create v v max_size).id = v ∧
    (session_create v v max_size).my_seq = v ∧
    (session_create r_id r_seq max_size).state = SessionState.SESSION_STATE_NEW ∧
    (session_create r_id r_seq max_size).their_seq = 0 ∧
    (session_create r_id r_seq max_size).is_closed = false ∧
    (session_create r_id r_seq max_size).outgoing_data = [] ∧
    (session_create r_id r_seq max_size).incoming_data = [] := by
  refine ⟨rfl, rfl, Nat.mod_lt _ (by decide), Nat.mod_lt _ (by decide),
    ?_, ?_, rfl, rfl, rfl, rfl, rfl⟩ <;>
    simp [session_create, Nat.mod_eq_of_lt hv]

/-- Witness for C5 (amended) at concrete draws. -/
theorem C5_create_initial_state_witness :
    (session_create 0 1 2).id = 0 ∧ (session_create 3 3 2).id = 3 ∧
    (session_create 0 1 2).their_seq = 0 := by
  have h := C5_create_initial_state 0 1 2 3 (by decide)
  exact ⟨h.1, h.2.2.2.2.1, h.2.2.2.2.2.2.2.1⟩

/-- Clearing drained buffers changes nothing in the list model: a buffer
is cleared only when it is already empty. -/
theorem clean_up_buffers_eq (s : Session) : clean_up_buffers s = s := by
  obtain ⟨id, my, st, their, cl, mps, inc, out, nm⟩ := s
  unfold clean_up_buffers
  by_cases h1 : buffer_get_remaining_bytes out = 0 <;>
    by_cases h2 : buffer_get_remaining_bytes inc = 0 <;>
      simp_all [buffer_get_remaining_bytes, buffer_clear, List.length_eq_zero]

/-- The state after `session_do_actions` is the cleaned-up state, which
in the list model is the state itself. -/
theorem session_do_actions_fst (s : Session) :
    (session_do_actions s).1 = s := by
  unfold session_do_actions
  rw [clean_up_buffers_eq]
  dsimp only
  split <;> rfl

/-- The state after `session_close` only gains the closing flag. -/
theorem session_close_fst (s : Session) :
    (session_close s).1 = { s with is_closed := true } := by
  unfold session_close
  dsimp only
  split <;> rfl

/-- Incoming-queue bookkeeping for the validated-MSG inner branch of
`session_recv`. -/
theorem recv_msg_case_fst_incoming (s : Session) (pk : Packet) :
    ((if seqSub pk.msg_ack s.my_seq ≤ buffer_get_remaining_bytes s.outgoing_data then
        session_recv_accept s pk (seqSub pk.msg_ack s.my_seq)
      else session_recv_tail s false).1).incoming_data = s.incoming_data := by
  split
  · simp [session_recv_accept_fst]
  · simp [session_recv_tail_fst]

/-- State bookkeeping for the validated-MSG inner branch of
`session_recv`. -/
theorem recv_msg_case_fst_state (s : Session) (pk : Packet) :
    ((if seqSub pk.msg_ack s.my_seq ≤ buffer_get_remaining_bytes s.outgoing_data then
        session_recv_accept s pk (seqSub pk.msg_ack s.my_seq)
      else session_recv_tail s false).1).state = s.state := by
  split
  · simp [session_recv_accept_fst]
  · simp [session_recv_tail_fst]

/-- The validated-MSG inner branch of `session_recv` never emits a FIN. -/
theorem sends_fin_recv_msg_case (s : Session) (pk : Packet) :
    sends_fin ((if seqSub pk.msg_ack s.my_seq ≤
          buffer_get_remaining_bytes s.outgoing_data then
        session_recv_accept s pk (seqSub pk.msg_ack s.my_seq)
      else session_recv_tail s false).2) = false := by
  split
  · exact sends_fin_session_recv_accept s pk _
  · exact sends_fin_session_recv_tail s false

/-- Computation of `sends_fin` on the terminating traces. -/
theorem sends_fin_final_fin_trace (s : Session) :
    sends_fin (send_final_fin s ++ [Event.exited 0]) = true := by
  simp [sends_fin, send_final_fin, packet_create_fin, PACKET_TYPE_FIN]

/-- A bare exit trace contains no FIN. -/
theorem sends_fin_exited (c : Nat) : sends_fin [Event.exited c] = false := by
  rfl

/-- No session operation ever appends to the incoming queue:
`session_recv` delivers received payload directly via the callback. -/
theorem session_recv_fst_incoming (s : Session) (p : Option Packet) :
    (session_recv s p).1.incoming_data = s.incoming_data := by
  cases p with
  | none => rfl
  | some pk =>
    unfold session_recv
    by_cases hid : pk.session_id = s.id
    · cases hst : s.state
      · by_cases h0 : pk.packet_type = PACKET_TYPE_SYN <;>
          by_cases h1 : pk.packet_type = PACKET_TYPE_MSG <;>
            by_cases h2 : pk.packet_type = PACKET_TYPE_FIN <;>
              simp_all [PACKET_TYPE_SYN, PACKET_TYPE_MSG, PACKET_TYPE_FIN,
                session_recv_tail_fst]
      · by_cases h0 : pk.packet_type = PACKET_TYPE_SYN <;>
          by_cases h1 : pk.packet_type = PACKET_TYPE_MSG <;>
            by_cases h2 : pk.packet_type = PACKET_TYPE_FIN <;>
              by_cases hseq : pk.msg_seq = s.their_seq <;>
                simp_all [PACKET_TYPE_SYN, PACKET_TYPE_MSG, PACKET_TYPE_FIN,
                  session_recv_tail_fst, recv_msg_case_fst_incoming]
    · simp [hid, session_recv_tail_fst]

/-- C9: every session reachable from `session_create` through the public
operations has an empty incoming queue, so the teardown condition on the
incoming queue always holds. -/
theorem C9_incoming_queue_always_empty (s : Session) (h : Reachable s) :
    s.incoming_data = [] := by
  induction h with
  | created r_id r_seq max_size => rfl
  | step hr hstep ih =>
    cases hstep with
    | send d => simpa [session_send, buffer_add_bytes] using ih
    | recv p => rw [session_recv_fst_incoming] ; exact ih
    | close => rw [session_close_fst] ; exact ih
    | do_actions => rw [session_do_actions_fst] ; exact ih
    | set_name n => simpa [session_set_name] using ih

/-- Witness for C9: a freshly created session is reachable and has an
empty incoming queue. -/
theorem C9_incoming_queue_always_empty_witness :
    (session_create 0 0 20).incoming_data = [] :=
  C9_incoming_queue_always_empty (session_create 0 0 20) (Reachable.created 0 0 20)

/-- State characterization of `session_recv` on a parsed packet: the
state changes only from New to Established, and only on a SYN with a
matching session id. -/
theorem session_recv_fst_state (s : Session) (pk : Packet) :
    (session_recv s (some pk)).1.state =
      (if s.state = SessionState.SESSION_STATE_NEW ∧ pk.session_id = s.id ∧
          pk.packet_type = PACKET_TYPE_SYN then
        SessionState.SESSION_STATE_ESTABLISHED
      else s.state) := by
  unfold session_recv
  by_cases hid : pk.session_id = s.id
  · cases hst : s.state
    · by_cases h0 : pk.packet_type = PACKET_TYPE_SYN <;>
        by_cases h1 : pk.packet_type = PACKET_TYPE_MSG <;>
          by_cases h2 : pk.packet_type = PACKET_TYPE_FIN <;>
            simp_all [PACKET_TYPE_SYN, PACKET_TYPE_MSG, PACKET_TYPE_FIN,
              session_recv_tail_fst]
    · by_cases h0 : pk.packet_type = PACKET_TYPE_SYN <;>
        by_cases h1 : pk.packet_type = PACKET_TYPE_MSG <;>
          by_cases h2 : pk.packet_type = PACKET_TYPE_FIN <;>
            by_cases hseq : pk.msg_seq = s.their_seq <;>
              simp_all [PACKET_TYPE_SYN, PACKET_TYPE_MSG, PACKET_TYPE_FIN,
                session_recv_tail_fst, recv_msg_case_fst_state]
  · simp [hid, session_recv_tail_fst]

/-- C6: the New-to-Established transition happens exactly on receipt of
a matching-id SYN in state New (which adopts the SYN sequence number as
`their_seq`); a MSG received in state New is a complete no-op with no
events (so no error); and no other public operation changes the state. -/
theorem C6_establishment (s : Session) (p : Packet) (d : List Nat) (n : String) :
    (s.state = SessionState.SESSION_STATE_NEW → p.session_id = s.id →
      p.packet_type = PACKET_TYPE_MSG → session_recv s (some p) = (s, [])) ∧
    ((session_recv s (some p)).1.state = SessionState.SESSION_STATE_ESTABLISHED ↔
      (s.state = SessionState.SESSION_STATE_ESTABLISHED ∨
        (s.state = SessionState.SESSION_STATE_NEW ∧ p.session_id = s.id ∧
          p.packet_type = PACKET_TYPE_SYN))) ∧
    (s.state = SessionState.SESSION_STATE_NEW → p.session_id = s.id →
      p.packet_type = PACKET_TYPE_SYN →
      (session_recv s (some p)).1.their_seq = p.syn_seq ∧
      (session_recv s (some p)).1.state = SessionState.SESSION_STATE_ESTABLISHED) ∧
    (session_send s d).1.state = s.state ∧
    (session_close s).1.state = s.state ∧
    (session_do_actions s).1.state = s.state ∧
    (session_recv s none).1.state = s.state ∧
    (session_set_name s n).state = s.state := by
  refine ⟨?_, ?_, ?_, rfl, ?_, ?_, rfl, rfl⟩
  · intro hst hid hty
    unfold session_recv
    simp [hst, hid, hty, PACKET_TYPE_SYN, PACKET_TYPE_MSG, session_recv_tail_false]
  · rw [session_recv_fst_state]
    cases hst : s.state <;> split <;> simp_all
  · intro hst hid hty
    constructor
    · unfold session_recv
      simp [hst, hid, hty, session_recv_tail_fst]
    · rw [session_recv_fst_state]
      simp [hst, hid, hty]
  · rw [session_close_fst]
  · rw [session_do_actions_fst]

/-- Witness for C6 at concrete inputs: a MSG in state New is dropped
without effect, and a matching SYN establishes the session and adopts
its sequence number. -/
theorem C6_establishment_witness :
    session_recv
        ⟨1, 10, SessionState.SESSION_STATE_NEW, 0, false, 20, [], [7], none⟩
        (some ⟨1, PACKET_TYPE_MSG, 0, none, 0, 10, [3]⟩) =
      (⟨1, 10, SessionState.SESSION_STATE_NEW, 0, false, 20, [], [7], none⟩, []) ∧
    (session_recv
        ⟨1, 10, SessionState.SESSION_STATE_NEW, 0, false, 20, [], [7], none⟩
        (some ⟨1, PACKET_TYPE_SYN, 100, none, 0, 0, []⟩)).1.their_seq = 100 ∧
    (session_recv
        ⟨1, 10, SessionState.SESSION_STATE_NEW, 0, false, 20, [], [7], none⟩
        (some ⟨1, PACKET_TYPE_SYN, 100, none, 0, 0, []⟩)).1.state =
      SessionState.SESSION_STATE_ESTABLISHED := by
  have hmsg := C6_establishment
    ⟨1, 10, SessionState.SESSION_STATE_NEW, 0, false, 20, [], [7], none⟩
    ⟨1, PACKET_TYPE_MSG, 0, none, 0, 10, [3]⟩ [] ""
  have hsyn := C6_establishment
    ⟨1, 10, SessionState.SESSION_STATE_NEW, 0, false, 20, [], [7], none⟩
    ⟨1, PACKET_TYPE_SYN, 100, none, 0, 0, []⟩ [] ""
  exact ⟨hmsg.1 rfl rfl rfl, (hsyn.2.2.1 rfl rfl rfl).1, (hsyn.2.2.1 rfl rfl rfl).2⟩

/-- C8: the send path in state New hands the callback exactly one SYN
carrying the id, `my_seq`, and the optional name, with no data; in state
Established it hands exactly one MSG carrying the id, `my_seq`,
`their_seq`, and the first `min(max_packet_payload, remaining)` bytes of
the outgoing queue, leaving the queue unchanged; an empty queue yields a
zero-length MSG. -/
theorem C8_send_path (s : Session) (d : List Nat) :
    (s.state = SessionState.SESSION_STATE_NEW →
      ∃ p, do_send_stuff s = [Event.sent p] ∧
        p.packet_type = PACKET_TYPE_SYN ∧ p.session_id = s.id ∧
        p.syn_seq = s.my_seq ∧ p.syn_name = s.name ∧ p.msg_data = []) ∧
    (s.state = SessionState.SESSION_STATE_ESTABLISHED →
      ∃ p, do_send_stuff s = [Event.sent p] ∧
        p.packet_type = PACKET_TYPE_MSG ∧ p.session_id = s.id ∧
        p.msg_seq = s.my_seq ∧ p.msg_ack = s.their_seq ∧
        p.msg_data = s.outgoing_data.take (max_packet_payload s) ∧
        p.msg_data.length = min (max_packet_payload s) s.outgoing_data.length ∧
        (s.outgoing_data = [] → p.msg_data = [])) ∧
    (session_do_actions s).1.outgoing_data = s.outgoing_data ∧
    (session_send s d).1.outgoing_data = s.outgoing_data ++ d := by
  refine ⟨?_, ?_, ?_, rfl⟩
  · intro hst
    unfold do_send_stuff
    rw [hst]
    cases hnm : s.name <;> exact ⟨_, rfl, rfl, rfl, rfl, rfl, rfl⟩
  · intro hst
    unfold do_send_stuff
    rw [hst]
    refine ⟨_, rfl, rfl, rfl, rfl, rfl, rfl, ?_, ?_⟩
    · simp [packet_create_msg, buffer_read_remaining_bytes, max_packet_payload,
        List.length_take]
    · intro h
      simp [packet_create_msg, buffer_read_remaining_bytes, h]
  · rw [session_do_actions_fst]

/-- Witness for C8: the scenario from the specification — ten queued
bytes with a payload bound of four; in New only a SYN with no data goes
out, and in Established a MSG with exactly the first four bytes goes
out. -/
theorem C8_send_path_witness :
    (∃ p, do_send_stuff
        ⟨1, 10, SessionState.SESSION_STATE_NEW, 0, false, 13, [],
          [65, 66, 67, 68, 69, 70, 71, 72, 73, 74], none⟩ = [Event.sent p] ∧
      p.packet_type = PACKET_TYPE_SYN ∧ p.msg_data = []) ∧
    (∃ p, do_send_stuff
        ⟨1, 10, SessionState.SESSION_STATE_ESTABLISHED, 100, false, 13, [],
          [65, 66, 67, 68, 69, 70, 71, 72, 73, 74], none⟩ = [Event.sent p] ∧
      p.packet_type = PACKET_TYPE_MSG ∧ p.msg_data = [65, 66, 67, 68]) := by
  have hnew := C8_send_path
    ⟨1, 10, SessionState.SESSION_STATE_NEW, 0, false, 13, [],
      [65, 66, 67, 68, 69, 70, 71, 72, 73, 74], none⟩ []
  have hest := C8_send_path
    ⟨1, 10, SessionState.SESSION_STATE_ESTABLISHED, 100, false, 13, [],
      [65, 66, 67, 68, 69, 70, 71, 72, 73, 74], none⟩ []
  obtain ⟨p1, e1, t1, _, _, _, d1⟩ := hnew.1 rfl
  obtain ⟨p2, e2, t2, _, _, _, d2, _⟩ := hest.2.1 rfl
  refine ⟨⟨p1, e1, t1, d1⟩, ⟨p2, e2, t2, ?_⟩⟩
  rw [d2]
  decide

/-- C4 counterexample: a session in Established with a non-empty
outgoing queue, no close request, receiving a matching-id packet of
unknown type (tag 9) — the code hands a final FIN to the send callback
even though no queue is empty, the peer sent no FIN, and the owner never
requested close. -/
theorem C4_counterexample :
    sends_fin (session_recv
        ⟨1, 10, SessionState.SESSION_STATE_ESTABLISHED, 5, false, 20, [], [7], none⟩
        (some ⟨1, 9, 0, none, 0, 0, []⟩)).2 = true ∧
    (⟨1, 10, SessionState.SESSION_STATE_ESTABLISHED, 5, false, 20, [], [7], none⟩ :
        Session).is_closed = false ∧
    buffer_get_remaining_bytes
        (⟨1, 10, SessionState.SESSION_STATE_ESTABLISHED, 5, false, 20, [], [7],
          none⟩ : Session).outgoing_data ≠ 0 ∧
    (9 : Nat) ≠ PACKET_TYPE_FIN := by
  decide

/-- C4 (amended): the final FIN is emitted exactly when both queues are
empty and the owner requested close (at `session_close` or during
`session_do_actions`), or — regardless of queue contents and the closing
flag — when a matching-id packet of unknown type arrives in state
Established, as a best-effort FIN before terminating; no other path
emits it (in particular a peer FIN terminates without one, and the send
paths never emit one). -/
theorem C4_final_fin_conditions (s : Session) (d : List Nat) (p : Packet) :
    sends_fin (session_send s d).2 = false ∧
    (sends_fin (session_close s).2 = true ↔
      s.incoming_data = [] ∧ s.outgoing_data = []) ∧
    (sends_fin (session_do_actions s).2 = true ↔
      s.is_closed = true ∧ s.incoming_data = [] ∧ s.outgoing_data = []) ∧
    (sends_fin (session_recv s (some p)).2 = true ↔
      (p.session_id = s.id ∧ s.state = SessionState.SESSION_STATE_ESTABLISHED ∧
        p.packet_type ≠ PACKET_TYPE_SYN ∧ p.packet_type ≠ PACKET_TYPE_MSG ∧
        p.packet_type ≠ PACKET_TYPE_FIN)) ∧
    sends_fin (session_recv s none).2 = false := by
  refine ⟨sends_fin_do_send_stuff _, ?_, ?_, ?_, rfl⟩
  · unfold session_close
    dsimp only
    split
    case isTrue h =>
      simp only [buffer_get_remaining_bytes, List.length_eq_zero] at h
      simp [sends_fin_final_fin_trace, h]
    case isFalse h =>
      simp only [buffer_get_remaining_bytes, List.length_eq_zero] at h
      simpa [sends_fin] using h
  · unfold session_do_actions
    rw [clean_up_buffers_eq]
    dsimp only
    split
    case isTrue h =>
      simp only [buffer_get_remaining_bytes, List.length_eq_zero] at h
      have hs := sends_fin_do_send_stuff s
      simp only [sends_fin, List.any_append] at hs ⊢
      simp [hs, send_final_fin, packet_create_fin, PACKET_TYPE_FIN, h]
    case isFalse h =>
      simp only [buffer_get_remaining_bytes, List.length_eq_zero] at h
      have hs := sends_fin_do_send_stuff s
      rw [hs]
      simp only [Bool.false_eq_true, false_iff]
      tauto
  · unfold session_recv
    by_cases hid : p.session_id = s.id
    · cases hst : s.state
      · by_cases h0 : p.packet_type = PACKET_TYPE_SYN <;>
          by_cases h1 : p.packet_type = PACKET_TYPE_MSG <;>
            by_cases h2 : p.packet_type = PACKET_TYPE_FIN <;>
              simp_all [PACKET_TYPE_SYN, PACKET_TYPE_MSG, PACKET_TYPE_FIN,
                sends_fin_session_recv_tail, sends_fin_exited]
      · by_cases h0 : p.packet_type = PACKET_TYPE_SYN <;>
          by_cases h1 : p.packet_type = PACKET_TYPE_MSG <;>
            by_cases h2 : p.packet_type = PACKET_TYPE_FIN <;>
              by_cases hseq : p.msg_seq = s.their_seq <;>
                simp_all [PACKET_TYPE_SYN, PACKET_TYPE_MSG, PACKET_TYPE_FIN,
                  sends_fin_session_recv_tail, sends_fin_recv_msg_case,
                  sends_fin_exited, sends_fin_final_fin_trace]
    · simp_all [sends_fin_session_recv_tail]

end Dnscat2
